import Mathlib

/-!
Verification of the task database core (`src/taskindicator/database.py`).

The Python source is shallowly embedded below:
pure string and arithmetic helpers become Lean functions, filesystem and
external-command effects become explicit state passing (an association-list
filesystem, a command oracle), and fallible code returns `Except`.
-/

namespace Taskindicator

/-! ## Python string helpers -/

/-- The characters Python `str.strip` and `str.rstrip` remove. -/
def pyWhitespaceChar (c : Char) : Bool :=
  c = ' ' || c = '\t' || c = '\n' || c = '\r' || c = '\x0b' || c = '\x0c'

/-- Python `s.rstrip()`. -/
def pyRstrip (s : String) : String :=
  String.mk ((s.toList.reverse.dropWhile pyWhitespaceChar).reverse)

/-- Python `s.strip()`. -/
def pyStrip (s : String) : String :=
  String.mk (((s.toList.dropWhile pyWhitespaceChar).reverse.dropWhile
    pyWhitespaceChar).reverse)

/-- Python `s.split(sep)` for a one-character separator: splits at every
occurrence, keeping empty pieces (`"a,,b".split(",") == ["a","","b"]`,
`"".split(",") == [""]`). -/
def pySplitGo (sep : Char) : List Char → List Char → List String
  | [], cur => [String.mk cur.reverse]
  | c :: cs, cur =>
    if c = sep then String.mk cur.reverse :: pySplitGo sep cs []
    else pySplitGo sep cs (c :: cur)

/-- Python `s.split(sep)` for a one-character separator. -/
def pySplit (sep : Char) (s : String) : List String :=
  pySplitGo sep s.toList []

/-- Python `s.replace("\\/", "/")`: left-to-right, non-overlapping. -/
def pyReplaceSlashGo : List Char → List Char
  | '\\' :: '/' :: rest => '/' :: pyReplaceSlashGo rest
  | c :: rest => c :: pyReplaceSlashGo rest
  | [] => []

/-- Python `s.replace("\\/", "/")` on a string. -/
def pyReplaceSlash (s : String) : String :=
  String.mk (pyReplaceSlashGo s.toList)

/-- Decimal digits accumulated into a natural number. -/
def digitsToNat (ds : List Char) : Nat :=
  ds.foldl (fun n c => 10 * n + (c.toNat - 48)) 0

/-- Python `int(s)` on a string: optional surrounding whitespace, optional
sign, then at least one decimal digit; anything else raises. -/
def pyParseInt (s : String) : Option Int :=
  match (pyStrip s).toList with
  | '-' :: ds =>
    if ds ≠ [] ∧ ds.all Char.isDigit then some (-(digitsToNat ds : Int)) else none
  | '+' :: ds =>
    if ds ≠ [] ∧ ds.all Char.isDigit then some (digitsToNat ds : Int) else none
  | ds =>
    if ds ≠ [] ∧ ds.all Char.isDigit then some (digitsToNat ds : Int) else none

/-- `os.path.join` for the two-component uses in the source. -/
def pathJoin (a b : String) : String := a ++ "/" ++ b

/-- Python `"%u" % n` for the integers produced here (renders like `%d`). -/
def pyFormatU (n : Int) : String := toString n

/-- Python `"%02u" % n`: the decimal rendering left-padded with zeros to
width two. -/
def pyFormat02u (n : Int) : String :=
  let s := toString n
  if s.length < 2 then String.mk (List.replicate (2 - s.length) '0') ++ s else s

/-- `Except` success test. -/
def exceptOk {α β : Type} : Except α β → Bool
  | Except.ok _ => true
  | Except.error _ => false

/-! ## Data model

A task record (`class Task(dict)`) is a mapping from field name to value.
Values arising in the source are text, the exploded tag list, the merged
urgency number (Python float, modelled as an exact rational), and Python
`None` (the absent sentinel returned by `Task.__getitem__`). -/

inductive Value where
  | str (s : String)
  | tags (ts : List String)
  | num (q : Rat)
  | none
deriving DecidableEq, Repr

/-- A task record: field names to values, in insertion order
(Python dict assignment updates in place, new keys append). -/
abbrev Task := List (String × Value)

/-- Lookup of a key in a record (Python `dict.get(key)` without default). -/
def Task.lookup : Task → String → Option Value
  | [], _ => Option.none
  | (k, v) :: rest, key => if k = key then some v else Task.lookup rest key

/-- Python dict assignment `task[k] = v`: overwrite in place, else append. -/
def Task.set : Task → String → Value → Task
  | [], k, v => [(k, v)]
  | (k', v') :: rest, k, v =>
    if k' = k then (k, v) :: rest else (k', v') :: Task.set rest k v

/-- `Task.__getitem__`: `tags` defaults to the empty list, every other
absent key yields Python `None`; retrieval never raises. -/
def Task.getItem (t : Task) (key : String) : Value :=
  if key = "tags" then (Task.lookup t key).getD (Value.tags [])
  else (Task.lookup t key).getD Value.none

/-- Python truthiness of `self.get(key)` results. -/
def pyTruthy : Option Value → Bool
  | Option.none => false
  | some (Value.str s) => s != ""
  | some (Value.tags ts) => !ts.isEmpty
  | some (Value.num q) => decide (q ≠ 0)
  | some Value.none => false

/-- The `uuid` of a record when it is a truthy string; `none` models the
`not self.get("uuid")` guard firing (every `uuid` stored by this program is
a string). -/
def Task.uuidStr (t : Task) : Option String :=
  match Task.lookup t "uuid" with
  | some (Value.str u) => if u = "" then Option.none else some u
  | _ => Option.none

/-! ## shlex.split

`shlex.split(s)` in Python 2.7 with `posix=True`, `whitespace_split=True`
and no comment characters, reproduced as a character state machine. -/

/-- The single-quote character. -/
def squoteChar : Char := Char.ofNat 39

/-- The double-quote character. -/
def dquoteChar : Char := Char.ofNat 34

/-- Characters `shlex` treats as token separators. -/
def shlexWhitespaceChar (c : Char) : Bool :=
  c = ' ' || c = '\t' || c = '\r' || c = '\n'

/-- Characters `shlex` treats as quotes. -/
def shlexQuoteChar (c : Char) : Bool :=
  c = squoteChar || c = dquoteChar

/-- Tokenizer state: between tokens, inside a word, inside a quoted part,
or just after an escape character (remembering the state to return to). -/
inductive ShMode where
  | ws
  | word
  | quote (q : Char)
  | esc (ret : ShMode)
deriving DecidableEq, Repr

/-- One pass of the `shlex` state machine over the input characters.
`token` is the token being built, `quoted` records whether the current
token saw a quote, `acc` the tokens already emitted. -/
def shlexRun : List Char → ShMode → String → Bool → List String →
    Except String (List String)
  | [], mode, token, quoted, acc =>
    match mode with
    | ShMode.ws =>
      if token != "" || quoted then Except.ok (acc ++ [token]) else Except.ok acc
    | ShMode.word =>
      if token != "" || quoted then Except.ok (acc ++ [token]) else Except.ok acc
    | ShMode.quote _ => Except.error "No closing quotation"
    | ShMode.esc _ => Except.error "No escaped character"
  | c :: cs, ShMode.ws, token, quoted, acc =>
    if shlexWhitespaceChar c then
      if token != "" || quoted then shlexRun cs ShMode.ws "" false (acc ++ [token])
      else shlexRun cs ShMode.ws token quoted acc
    else if c = '\\' then shlexRun cs (ShMode.esc ShMode.word) token quoted acc
    else if shlexQuoteChar c then shlexRun cs (ShMode.quote c) token quoted acc
    else shlexRun cs ShMode.word (token.push c) quoted acc
  | c :: cs, ShMode.word, token, quoted, acc =>
    if shlexWhitespaceChar c then
      if token != "" || quoted then shlexRun cs ShMode.ws "" false (acc ++ [token])
      else shlexRun cs ShMode.ws token quoted acc
    else if shlexQuoteChar c then shlexRun cs (ShMode.quote c) token quoted acc
    else if c = '\\' then shlexRun cs (ShMode.esc ShMode.word) token quoted acc
    else shlexRun cs ShMode.word (token.push c) quoted acc
  | c :: cs, ShMode.quote q, token, _quoted, acc =>
    if c = q then shlexRun cs ShMode.word token true acc
    else if c = '\\' && q = dquoteChar then
      shlexRun cs (ShMode.esc (ShMode.quote q)) token true acc
    else shlexRun cs (ShMode.quote q) (token.push c) true acc
  | c :: cs, ShMode.esc ret, token, quoted, acc =>
    let token :=
      match ret with
      | ShMode.quote q =>
        if c ≠ '\\' ∧ c ≠ q then (token.push '\\').push c else token.push c
      | _ => token.push c
    shlexRun cs ret token quoted acc

/-- `shlex.split(s)` as called by the parser. -/
def shlexSplit (s : String) : Except String (List String) :=
  shlexRun s.toList ShMode.ws "" false []

/-! ## Record parser (`Tasks.load_data`) -/

/-- `line.startswith("[") and line.endswith("]")`. -/
def bracketOk (line : String) : Bool :=
  match line.toList with
  | [] => false
  | c :: rest => c = '[' && List.getLast? (c :: rest) = some ']'

/-- Python `line[1:-1]`: the line without its first and last character. -/
def pyInterior (line : String) : String :=
  String.mk ((line.toList.drop 1).dropLast)

/-- Split a token at its first `:`; `Option.none` models the
`":" not in kw` test. -/
def splitOnceColonGo : List Char → List Char → Option (String × String)
  | [], _ => Option.none
  | c :: rest, acc =>
    if c = ':' then some (String.mk acc.reverse, String.mk rest)
    else splitOnceColonGo rest (c :: acc)

/-- Split a token at its first `:`. -/
def splitOnceColon (kw : String) : Option (String × String) :=
  splitOnceColonGo kw.toList []

/-- The per-token body of the `load_data` loop: a token without `:` is
logged and skipped; otherwise the value is unescaped (`\/` to `/`,
utf-8 decoding is the identity here) and a `tags` value is exploded on
`,` before being assigned into the record. -/
def processToken (task : Task) (kw : String) : Task :=
  match splitOnceColon kw with
  | Option.none => task
  | some (k, v) =>
    if k = "tags" then Task.set task k (Value.tags (pySplit ',' (pyReplaceSlash v)))
    else Task.set task k (Value.str (pyReplaceSlash v))

/-- Parse the interior of one well-bracketed line into a record. -/
def parseLine (line : String) : Except String Task :=
  (shlexSplit (pyInterior line)).map (fun toks => toks.foldl processToken [])

/-- The line loop of `load_data`: each line must be bounded by `[` and `]`
(else `ValueError("Unsupported file format in <file>")`), and the first
failing line aborts the whole file. -/
def loadLines (database : String) : List String → Except String (List Task)
  | [] => Except.ok []
  | line :: rest =>
    if bracketOk line then
      match parseLine line with
      | Except.error e => Except.error e
      | Except.ok t =>
        match loadLines database rest with
        | Except.error e => Except.error e
        | Except.ok ts => Except.ok (t :: ts)
    else Except.error ("Unsupported file format in " ++ database)

/-! ## Export merger (`Tasks.merge_exported`) -/

/-- One record of the JSON-array `task export` stream: at least a `uuid`,
optionally an `urgency` number (`float(...)` on an exact JSON number is
modelled as the identity on rationals). -/
structure ExportEntry where
  uuid : String
  urgency : Option Rat
deriving DecidableEq, Repr

/-- The `_tasks[em["uuid"]] = em` dict: the last entry with a given uuid
wins. -/
def exportLookup (exported : List ExportEntry) (u : String) : Option ExportEntry :=
  exported.reverse.find? (fun em => em.uuid = u)

/-- The body of the merge loop for one record: a record whose `uuid` is
not exported is logged and left alone; otherwise an exported `urgency`
is assigned onto the record. -/
def mergeOne (exported : List ExportEntry) (task : Task) : Task :=
  match Task.getItem task "uuid" with
  | Value.str u =>
    match exportLookup exported u with
    | some em =>
      match em.urgency with
      | some q => Task.set task "urgency" (Value.num q)
      | Option.none => task
    | Option.none => task
  | _ => task

/-- `Tasks.merge_exported`: in-place update of each record by index. -/
def merge_exported (exported : List ExportEntry) (tasks : List Task) : List Task :=
  tasks.map (mergeOne exported)

/-- `Tasks.load_data`: a missing file is logged and contributes zero
records (the source returns an empty dict there); otherwise the contents
are right-stripped, split into lines, parsed, and merged with the exported
stream. -/
def load_data (database : String) (contents : Option String)
    (exported : List ExportEntry) : Except String (List Task) :=
  match contents with
  | Option.none => Except.ok []
  | some raw =>
    (loadLines database (pySplit '\n' (pyRstrip raw))).map (merge_exported exported)

/-! ## Note store (`Task.set_note` / `Task.get_note`)

The filesystem is explicit state: an association list of files and the
list of existing directories. -/

structure FS where
  files : List (String × String)
  dirs : List String
deriving DecidableEq, Repr

/-- Contents of a file, `Option.none` when the path does not exist. -/
def FS.readFile (fs : FS) (p : String) : Option String :=
  (fs.files.find? (fun e => e.1 = p)).map (fun e => e.2)

/-- `os.path.exists` on a file path. -/
def FS.fileExists (fs : FS) (p : String) : Bool :=
  (fs.readFile p).isSome

/-- `os.path.exists` on a directory path. -/
def FS.dirExists (fs : FS) (p : String) : Bool :=
  fs.dirs.contains p

/-- `open(p, "wb").write(c)`: create or overwrite. -/
def FS.write (fs : FS) (p c : String) : FS :=
  ⟨(p, c) :: fs.files.filter (fun e => e.1 ≠ p), fs.dirs⟩

/-- `os.unlink(p)`. -/
def FS.unlink (fs : FS) (p : String) : FS :=
  ⟨fs.files.filter (fun e => e.1 ≠ p), fs.dirs⟩

/-- `os.makedirs(p)`. -/
def FS.mkdir (fs : FS) (p : String) : FS :=
  ⟨fs.files, p :: fs.dirs⟩

/-- `os.path.join(folder, "notes", uuid)`. -/
def noteFile (folder uuid : String) : String :=
  pathJoin (pathJoin folder "notes") uuid

/-- `Task.get_note`: Python `None` (modelled `Option.none`) without a
`uuid`, the file contents when the note file exists, `""` otherwise.
`folder` is the resolved database folder. -/
def get_note (fs : FS) (folder : String) (t : Task) : Option String :=
  match Task.uuidStr t with
  | Option.none => Option.none
  | some u =>
    match fs.readFile (noteFile folder u) with
    | some contents => some contents
    | Option.none => some ""

/-- `Task.set_note` (the note argument is textual by typing, which
discharges the `isinstance` check): error without a `uuid`; no-op when the
note equals the stored note; otherwise ensure the notes folder, then write
the text if it is non-blank after stripping, else delete the file if it
exists. -/
def set_note (fs : FS) (folder : String) (t : Task) (note : String) :
    Except String FS :=
  match Task.uuidStr t with
  | Option.none => Except.error "Cannot set a note for an unsaved task (no uuid)."
  | some u =>
    if get_note fs folder t = some note then Except.ok fs
    else
      let notesDir := pathJoin folder "notes"
      let fs1 := if fs.dirExists notesDir then fs else fs.mkdir notesDir
      let fn := pathJoin notesDir u
      if pyStrip note ≠ "" then Except.ok (fs1.write fn note)
      else if fs1.fileExists fn then Except.ok (fs1.unlink fn)
      else Except.ok fs1

/-! ## Runtime accessors (`Task.get_current_runtime` /
`Task.format_current_runtime`) -/

/-- `Task.get_current_runtime` at the sampled clock value `now` (whole
seconds): zero when `start` is falsy, else `now - int(start)`;
`Option.none` models `int()` raising on a non-numeric value. -/
def get_current_runtime (t : Task) (now : Int) : Option Int :=
  if pyTruthy (Task.lookup t "start") then
    match Task.getItem t "start" with
    | Value.str s => (pyParseInt s).map (fun start => now - start)
    | _ => Option.none
  else some 0

/-- The `"%u:%02u:%02u"` rendering of a duration: Python 2 `/` on ints is
floor division (`Int.fdiv`) and `%` with a positive divisor matches
`Int.emod`. -/
def formatRuntime (duration : Int) : String :=
  let seconds := duration % 60
  let minutes := Int.fdiv duration 60 % 60
  let hours := Int.fdiv duration 3600 % 60
  pyFormatU hours ++ ":" ++ pyFormat02u minutes ++ ":" ++ pyFormat02u seconds

/-- `Task.format_current_runtime`. -/
def format_current_runtime (t : Task) (now : Int) : Option String :=
  (get_current_runtime t now).map formatRuntime

/-! ## Database facade (`class Database`) -/

/-- The environment a load sees: the resolved data folder, the contents of
the two database files (`Option.none` = missing) and the export stream. -/
structure Env where
  folder : String
  pending : Option String
  completed : Option String
  exported : List ExportEntry
deriving Repr

/-- `Tasks.__init__` / `Database.load_tasks`: pending records followed by
completed records, each file through `load_data`. -/
def load_tasks (env : Env) : Except String (List Task) :=
  match load_data (pathJoin env.folder "pending.data") env.pending env.exported with
  | Except.error e => Except.error e
  | Except.ok a =>
    match load_data (pathJoin env.folder "completed.data") env.completed env.exported with
    | Except.error e => Except.error e
    | Except.ok b => Except.ok (a ++ b)

/-- The facade state: `self._tasks`, the zero-or-one cached collection. -/
structure DatabaseState where
  cache : Option (List Task)
deriving DecidableEq, Repr

/-- `Database.get_tasks`: return the cache, loading it first only when it
is empty. -/
def get_tasks (env : Env) (st : DatabaseState) :
    Except String (List Task × DatabaseState) :=
  match st.cache with
  | some ts => Except.ok (ts, st)
  | Option.none =>
    match load_tasks env with
    | Except.error e => Except.error e
    | Except.ok ts => Except.ok (ts, ⟨some ts⟩)

/-- `Database.refresh`: discard the cache, then `get_tasks`. -/
def refresh (env : Env) (_st : DatabaseState) :
    Except String (List Task × DatabaseState) :=
  get_tasks env ⟨Option.none⟩

/-- `Database.modified_since`: `os.stat` on the pending file raises when
the file is absent; otherwise compare its mtime strictly against `ts`. -/
def modified_since (mtime : String → Option Int) (filename : String)
    (ts : Int) : Except String Bool :=
  match mtime filename with
  | Option.none => Except.error ("No such file or directory: " ++ filename)
  | some m => Except.ok (decide (ts < m))

/-- `Database.start_task`: the issued commands and the (untouched) cache
state. -/
def start_task (task_id : String) (st : DatabaseState) :
    List (List String) × DatabaseState :=
  ([["task", task_id, "start"]], st)

/-- `Database.stop_task`. -/
def stop_task (task_id : String) (st : DatabaseState) :
    List (List String) × DatabaseState :=
  ([["task", task_id, "stop"]], st)

/-- `Database.finish_task`: stop then done. -/
def finish_task (task_id : String) (st : DatabaseState) :
    List (List String) × DatabaseState :=
  ([["task", task_id, "stop"], ["task", task_id, "done"]], st)

/-- `Database.restart_task`: reset status to pending, then start. -/
def restart_task (task_id : String) (st : DatabaseState) :
    List (List String) × DatabaseState :=
  ([["task", task_id, "mod", "status:pending"], ["task", task_id, "start"]], st)

/-! ## Property translation (`Database.update_task` / `Database.add_task`)

Property mappings are association lists (`dict.items()` order made
explicit). A value is a string or a list of strings. -/

inductive PropVal where
  | s (v : String)
  | l (vs : List String)
deriving DecidableEq, Repr

/-- `for tag in v: if tag.strip(): command.append(tag)` — iterating a
Python string yields its characters. -/
def tagsArgs : PropVal → List String
  | PropVal.l vs => vs.filter (fun t => pyStrip t ≠ "")
  | PropVal.s v => ((v.toList.map (fun c => String.mk [c])).filter
      (fun t => pyStrip t ≠ ""))

/-- Python `str(...)` of a property value, as used by
`"{0}:{1}".format(k, v)` (list renderings never occur in the modelled
claims; quotes inside entries are not re-escaped). -/
def propValStr : PropVal → String
  | PropVal.s v => v
  | PropVal.l vs =>
    "[" ++ String.intercalate ", "
      (vs.map (fun v => String.mk (squoteChar :: v.toList ++ [squoteChar]))) ++ "]"

/-- The property loop of `Database.update_task`.  `command` grows across
iterations and `util.run_command(command)` runs INSIDE the loop, once per
property (except `uuid`, whose `continue` also skips the run).  A `note`
property is diverted to the note store; a non-textual note raises the
`isinstance` ValueError from `set_note`. -/
def updateTaskGo (folder : String) (task_id : String) :
    List (String × PropVal) → List String → List (List String) → FS →
    Except String (List (List String) × FS)
  | [], _command, issued, fs => Except.ok (issued.reverse, fs)
  | (k, v) :: rest, command, issued, fs =>
    if k = "uuid" then updateTaskGo folder task_id rest command issued fs
    else if k = "tags" then
      let command := command ++ tagsArgs v
      updateTaskGo folder task_id rest command (command :: issued) fs
    else if k = "description" then
      let command := command ++ [propValStr v]
      updateTaskGo folder task_id rest command (command :: issued) fs
    else if k = "note" then
      match v with
      | PropVal.s note =>
        match set_note fs folder (Task.set [] "uuid" (Value.str task_id)) note with
        | Except.error e => Except.error e
        | Except.ok fs1 =>
          updateTaskGo folder task_id rest command (command :: issued) fs1
      | PropVal.l _ => Except.error "Note must be a text string."
    else
      let command := command ++ [k ++ ":" ++ propValStr v]
      updateTaskGo folder task_id rest command (command :: issued) fs

/-- `Database.update_task`: returns the external requests issued, in
order, and the resulting filesystem. -/
def update_task (folder : String) (fs : FS) (task_id : String)
    (props : List (String × PropVal)) : Except String (List (List String) × FS) :=
  updateTaskGo folder task_id props ["task", task_id, "mod"] [] fs

/-- Whether the second character list starts with the first. -/
def listStartsWith : List Char → List Char → Bool
  | [], _ => true
  | _ :: _, [] => false
  | p :: ps, c :: cs => p = c && listStartsWith ps cs

/-- The literal part of the pattern `"Created task (\d+)"`. -/
def createdPat : List Char := "Created task ".toList

/-- First match of `re.findall("Created task (\d+)", output)`: the maximal
digit run after the leftmost occurrence of the literal text. -/
def findCreated : List Char → Option String
  | [] => Option.none
  | c :: cs =>
    if listStartsWith createdPat (c :: cs) then
      let rest := (c :: cs).drop createdPat.length
      let digits := rest.takeWhile Char.isDigit
      if digits.isEmpty then findCreated cs else some (String.mk digits)
    else findCreated cs

/-- The property loop of `Database.add_task`: as in `update_task`, the
tool runs once per property; the first output carrying `Created task N`
triggers one resolution request `task N uuid` and an immediate return of
the stripped uuid.  There is no `note` branch here. -/
def addTaskGo (runner : List String → String) :
    List (String × PropVal) → List String → List (List String) →
    List (List String) × Option String
  | [], _command, issued => (issued.reverse, Option.none)
  | (k, v) :: rest, command, issued =>
    if k = "uuid" then addTaskGo runner rest command issued
    else
      let command :=
        if k = "tags" then command ++ tagsArgs v
        else if k = "description" then command ++ [propValStr v]
        else command ++ [k ++ ":" ++ propValStr v]
      let output := runner command
      let issued := command :: issued
      match findCreated output.toList with
      | some taskno =>
        let resolve := ["task", taskno, "uuid"]
        let uuid := pyStrip (runner resolve)
        ((resolve :: issued).reverse, some uuid)
      | Option.none => addTaskGo runner rest command issued

/-- `Database.add_task`: returns the external requests issued, in order,
and the uuid returned to the caller (`Option.none` is the implicit Python
`None` when no output ever matches). -/
def add_task (runner : List String → String)
    (props : List (String × PropVal)) : List (List String) × Option String :=
  addTaskGo runner props ["task", "add"] []

/-! ## Concrete fixtures used by witnesses and counterexamples -/

/-- A filesystem holding a whitespace-only note for task `u1`. -/
def fsWsNote : FS := ⟨[("db/notes/u1", "  ")], ["db/notes"]⟩

/-- A saved task with uuid `u1`. -/
def taskU1 : Task := [("uuid", Value.str "u1")]

/-- A facade state caching one collection. -/
def stCached : DatabaseState := ⟨some [[("uuid", Value.str "a")]]⟩

/-- An environment whose pending file holds a different task. -/
def envPendingB : Env := ⟨"data", some "[uuid:b]", Option.none, []⟩

/-- A command oracle answering the creation request for `buy milk` with a
created-task report and resolving task number 42. -/
def runnerBuyMilk : List String → String := fun cmd =>
  if cmd = ["task", "add", "buy milk"] then "Created task 42."
  else if cmd = ["task", "42", "uuid"] then "ab-cd\n" else ""

/-- An mtime table where only the pending file exists, at time 10. -/
def mtimeSample : String → Option Int := fun p =>
  if p = "data/pending.data" then some 10 else Option.none

/-- An export stream carrying urgency 4.5 for `u1`. -/
def exportSample : List ExportEntry := [⟨"u1", some ((9 : Rat) / 2)⟩]

/-- A parsed record for `u1` with a status field. -/
def taskSample : Task := [("uuid", Value.str "u1"), ("status", Value.str "pending")]

/-! ## Helper lemmas on records and the filesystem -/

theorem lookup_set_self (t : Task) (k : String) (v : Value) :
    Task.lookup (Task.set t k v) k = some v := by
  induction t with
  | nil => simp [Task.set, Task.lookup]
  | cons hd rest ih =>
    obtain ⟨k', v'⟩ := hd
    by_cases hk : k' = k <;> simp [Task.set, Task.lookup, hk, ih]

theorem lookup_set_other (t : Task) (k key : String) (v : Value)
    (h : key ≠ k) :
    Task.lookup (Task.set t k v) key = Task.lookup t key := by
  induction t with
  | nil => simp [Task.set, Task.lookup, Ne.symm h]
  | cons hd rest ih =>
    obtain ⟨k', v'⟩ := hd
    by_cases hk : k' = k
    · subst hk
      simp [Task.set, Task.lookup, Ne.symm h]
    · simp only [Task.set, if_neg hk]
      by_cases hky : k' = key <;> simp [Task.lookup, hky, ih]

theorem readFile_write_self (fs : FS) (p c : String) :
    (fs.write p c).readFile p = some c := by
  simp [FS.write, FS.readFile, List.find?]

theorem readFile_unlink_self (fs : FS) (p : String) :
    (fs.unlink p).readFile p = Option.none := by
  unfold FS.unlink FS.readFile
  have h : (fs.files.filter (fun e => e.1 ≠ p)).find? (fun e => e.1 = p) =
      Option.none := by
    rw [List.find?_eq_none]
    intro x hx
    simp only [List.mem_filter, decide_eq_true_eq] at hx
    simp [hx.2]
  rw [h]
  rfl

theorem readFile_mkdir (fs : FS) (d q : String) :
    (fs.mkdir d).readFile q = fs.readFile q := rfl

theorem dirExists_write (fs : FS) (p c d : String) :
    (fs.write p c).dirExists d = fs.dirExists d := rfl

theorem dirExists_mkdir_self (fs : FS) (d : String) :
    (fs.mkdir d).dirExists d = true := by
  simp [FS.mkdir, FS.dirExists]

/-! ## Claim theorems -/

/-- Claim C9: field retrieval on a task record never fails: an absent
`tags` field yields the empty sequence, and any other absent field yields
the defined absent sentinel (Python `None`) rather than raising. -/
theorem C9_absent_field_access (t : Task) (k : String)
    (h : Task.lookup t k = Option.none) :
    Task.getItem t k = if k = "tags" then Value.tags [] else Value.none := by
  unfold Task.getItem
  rw [h]
  by_cases hk : k = "tags" <;> simp [hk]

/-- Witness for C9 at a concrete record and key. -/
theorem C9_witness : Task.getItem ([] : Task) "project" = Value.none := by
  simpa using C9_absent_field_access [] "project" rfl

/-- Claim C10: `modified_since(ts)` requires the pending data file to
exist: present, it returns whether the on-disk mtime is strictly greater
than `ts`; absent, the stat error propagates instead of returning false —
unlike collection loading, where a missing database file contributes zero
records. -/
theorem C10_modified_since (mtime : String → Option Int) (fn : String)
    (ts m : Int) :
    (mtime fn = some m →
      modified_since mtime fn ts = Except.ok (decide (ts < m))) ∧
    (mtime fn = Option.none →
      modified_since mtime fn ts =
        Except.error ("No such file or directory: " ++ fn)) ∧
    (∀ (db : String) (exported : List ExportEntry),
      load_data db Option.none exported = Except.ok []) :=
  ⟨fun h => by simp [modified_since, h],
   fun h => by simp [modified_since, h],
   fun _db _exported => rfl⟩

/-- Witness for C10: existing file with mtime 10 against ts 3. -/
theorem C10_witness :
    modified_since mtimeSample "data/pending.data" 3 = Except.ok true := by
  have h := (C10_modified_since mtimeSample "data/pending.data" 3 10).1 rfl
  simpa using h

/-- Claim C4: `formatted_runtime` renders `H:MM:SS` where H is unpadded
and equals `(seconds // 3600) % 60` (hours wrap modulo 60, not 24), M is
the zero-padded `(seconds // 60) % 60` and S the zero-padded
`seconds % 60`; 125 seconds render as `0:02:05`, 3725 as `1:02:05`
(and 90 hours as `30:00:00`, not `18:00:00`); a task without `start` has
runtime zero. -/
theorem C4_formatted_runtime (s : Nat) (t : Task) (now : Int)
    (h : Task.lookup t "start" = Option.none) :
    get_current_runtime t now = some 0 ∧
    formatRuntime (s : Int) =
      pyFormatU ((s / 3600 % 60 : Nat) : Int) ++ ":" ++
      pyFormat02u ((s / 60 % 60 : Nat) : Int) ++ ":" ++
      pyFormat02u ((s % 60 : Nat) : Int) ∧
    formatRuntime 125 = "0:02:05" ∧ formatRuntime 3725 = "1:02:05" ∧
    formatRuntime 324000 = "30:00:00" := by
  refine ⟨?_, ?_, rfl, rfl, rfl⟩
  · simp [get_current_runtime, h, pyTruthy]
  · simp only [formatRuntime]
    have e1 : Int.fdiv (s : Int) 3600 % 60 = ((s / 3600 % 60 : Nat) : Int) := by
      rw [Int.fdiv_eq_ediv _ (by decide)]
      omega
    have e2 : Int.fdiv (s : Int) 60 % 60 = ((s / 60 % 60 : Nat) : Int) := by
      rw [Int.fdiv_eq_ediv _ (by decide)]
      omega
    have e3 : (s : Int) % 60 = ((s % 60 : Nat) : Int) := by omega
    rw [e1, e2, e3]

/-- Witness for C4 at an empty record. -/
theorem C4_witness : get_current_runtime ([] : Task) 0 = some 0 :=
  (C4_formatted_runtime 0 [] 0 rfl).1

/-- Claim C5 (code defect): the property translation itself matches the
claim, but a `note` property does NOT leave the external tool untouched:
`util.run_command(command)` sits inside the property loop, so updating
only the note still issues one bare `task <id> mod` request while the
note text goes to the note store. -/
theorem C5_note_issues_request :
    update_task "db" ⟨[], []⟩ "1" [("note", PropVal.s "hello")] =
      Except.ok ([["task", "1", "mod"]],
        ⟨[("db/notes/1", "hello")], ["db/notes"]⟩) ∧
    [["task", "1", "mod"]] ≠ ([] : List (List String)) :=
  ⟨rfl, by decide⟩

/-- Claim C6 (code defect): `add` invokes the external tool once per
property and returns right after the first response reporting a created
task: with `{description: "buy milk", tags: ["home"]}` it issues the
creation request `task add (buy milk)` without the tag, then the
resolution request, and returns the stripped uuid — no issued request
ever ends in `home buy milk`. -/
theorem C6_add_per_property :
    add_task runnerBuyMilk
        [("description", PropVal.s "buy milk"), ("tags", PropVal.l ["home"])] =
      ([["task", "add", "buy milk"], ["task", "42", "uuid"]], some "ab-cd") ∧
    "home" ∉ (["task", "add", "buy milk"] ++ ["task", "42", "uuid"]) :=
  ⟨rfl, by decide⟩

/-- Through one token of the parser loop, the value stored under `tags`
stays an exploded sequence. -/
theorem processToken_tags_shape (t : Task) (kw : String)
    (h : ∀ v, Task.lookup t "tags" = some v → ∃ ts, v = Value.tags ts) :
    ∀ v, Task.lookup (processToken t kw) "tags" = some v →
      ∃ ts, v = Value.tags ts := by
  intro v hv
  unfold processToken at hv
  split at hv
  · exact h v hv
  · next k val heq =>
      split at hv
      · next hk =>
          subst hk
          rw [lookup_set_self] at hv
          exact ⟨_, (Option.some.inj hv).symm⟩
      · next hk =>
          rw [lookup_set_other _ _ _ _ (fun he => hk he.symm)] at hv
          exact h v hv

/-- The parser-loop invariant extended over a whole token list. -/
theorem foldl_processToken_tags_shape (toks : List String) (t : Task)
    (h : ∀ v, Task.lookup t "tags" = some v → ∃ ts, v = Value.tags ts) :
    ∀ v, Task.lookup (toks.foldl processToken t) "tags" = some v →
      ∃ ts, v = Value.tags ts := by
  induction toks generalizing t with
  | nil => exact h
  | cons kw rest ih => exact ih (processToken t kw) (processToken_tags_shape t kw h)

/-- Claim C1 (amended): the parser explodes a `tags` value on `,` into an
ordered sequence of strings, keeping empty entries (raw `a,,b` parses to
`["a", "", "b"]`), and the stored value is always a sequence, never
re-joined into a single string. -/
theorem C1_tags_exploded (line : String) (task : Task)
    (h : parseLine line = Except.ok task) (v : Value)
    (hv : Task.lookup task "tags" = some v) :
    (∃ ts, v = Value.tags ts) ∧
    parseLine "[tags:a,b,c]" = Except.ok [("tags", Value.tags ["a", "b", "c"])] ∧
    parseLine "[uuid:u tags:a,,b]" =
      Except.ok [("uuid", Value.str "u"), ("tags", Value.tags ["a", "", "b"])] := by
  refine ⟨?_, rfl, rfl⟩
  obtain ⟨toks, _htoks, htask⟩ :
      ∃ toks, shlexSplit (pyInterior line) = Except.ok toks ∧
        task = toks.foldl processToken [] := by
    unfold parseLine at h
    cases hs : shlexSplit (pyInterior line) with
    | error e => rw [hs] at h; exact absurd h (by simp [Except.map])
    | ok toks =>
      rw [hs] at h
      simp only [Except.map, Except.ok.injEq] at h
      exact ⟨toks, rfl, h.symm⟩
  subst htask
  exact foldl_processToken_tags_shape toks []
    (fun v hv => by simp [Task.lookup] at hv) v hv

/-- Witness for C1 at a concrete parsed line. -/
theorem C1_witness :
    parseLine "[tags:a,b,c]" = Except.ok [("tags", Value.tags ["a", "b", "c"])] :=
  (C1_tags_exploded "[tags:x]" [("tags", Value.tags ["x"])] rfl
    (Value.tags ["x"]) rfl).2.1

/-- Claim C1 counterexample: the empty entry of `a,,b` is kept, not
dropped, so the parsed sequence is `["a", "", "b"]`, not `["a", "b"]`. -/
theorem C1_counterexample :
    parseLine "[uuid:u tags:a,,b]" =
      Except.ok [("uuid", Value.str "u"), ("tags", Value.tags ["a", "", "b"])] ∧
    Value.tags ["a", "", "b"] ≠ Value.tags ["a", "b"] :=
  ⟨rfl, by decide⟩

/-- Claim C2: merging the export stream touches at most the `urgency` key
of each record: the record at any index is mapped through `mergeOne`, no
record is dropped (length preserved), every key other than `urgency` is
untouched, a record whose `uuid` is absent from the export (or missing)
is returned unmodified, and an exported `urgency` lands on the record as
that number. -/
theorem C2_merge_frame (exported : List ExportEntry) (tasks : List Task)
    (i : Nat) (t : Task) (ht : tasks[i]? = some t) :
    (merge_exported exported tasks).length = tasks.length ∧
    (merge_exported exported tasks)[i]? = some (mergeOne exported t) ∧
    (∀ k, k ≠ "urgency" →
      Task.lookup (mergeOne exported t) k = Task.lookup t k) ∧
    (∀ u, Task.getItem t "uuid" = Value.str u →
      exportLookup exported u = Option.none → mergeOne exported t = t) ∧
    (Task.lookup t "uuid" = Option.none → mergeOne exported t = t) ∧
    (∀ u em q, Task.getItem t "uuid" = Value.str u →
      exportLookup exported u = some em → em.urgency = some q →
      Task.lookup (mergeOne exported t) "urgency" = some (Value.num q)) := by
  refine ⟨by simp [merge_exported], by simp [merge_exported, ht], ?_, ?_, ?_, ?_⟩
  · intro k hk
    unfold mergeOne
    split
    · split
      · split
        · exact lookup_set_other t "urgency" k _ hk
        · rfl
      · rfl
    · rfl
  · intro u hg hl
    unfold mergeOne
    split
    · next u2 heq =>
        rw [hg] at heq
        obtain rfl := Value.str.inj heq
        rw [hl]
    · rfl
  · intro hl
    have hg : Task.getItem t "uuid" = Value.none := by
      simp [Task.getItem, hl]
    unfold mergeOne
    split
    · next u2 heq =>
        rw [hg] at heq
        simp at heq
    · rfl
  · intro u em q hg hl hu
    unfold mergeOne
    split
    · next u2 heq =>
        rw [hg] at heq
        obtain rfl := Value.str.inj heq
        split
        · next em2 heq2 =>
            rw [hl] at heq2
            obtain rfl := Option.some.inj heq2
            split
            · next q2 heq3 =>
                rw [hu] at heq3
                obtain rfl := Option.some.inj heq3
                exact lookup_set_self t "urgency" (Value.num q)
            · next heq3 =>
                rw [hu] at heq3
                simp at heq3
        · next heq2 =>
            rw [hl] at heq2
            simp at heq2
    · next hne =>
        exact absurd hg (hne u)

/-- Witness for C2: the status field survives the merge and the exported
urgency 4.5 is set. -/
theorem C2_witness :
    Task.lookup (mergeOne exportSample taskSample) "status" =
      some (Value.str "pending") ∧
    Task.lookup (mergeOne exportSample taskSample) "urgency" =
      some (Value.num (9 / 2)) :=
  ⟨(C2_merge_frame exportSample [taskSample] 0 taskSample rfl).2.2.1 "status"
      (by decide),
   (C2_merge_frame exportSample [taskSample] 0 taskSample rfl).2.2.2.2.2 "u1"
      ⟨"u1", some ((9 : Rat) / 2)⟩ ((9 : Rat) / 2) rfl rfl rfl⟩

/-- Claim C7 (amended): no mutation of the facade invalidates the cache:
`start`/`stop`/`finish`/`restart` return the cache state untouched (and
the `update`/`add` translations never see the cache at all), `get_tasks`
serves a cached collection without reloading, and only `refresh` discards
the cache before loading. -/
theorem C7_mutations_keep_cache (env : Env) (st : DatabaseState)
    (task_id : String) (ts : List Task) :
    (start_task task_id st).2 = st ∧ (stop_task task_id st).2 = st ∧
    (finish_task task_id st).2 = st ∧ (restart_task task_id st).2 = st ∧
    (st.cache = some ts → get_tasks env st = Except.ok (ts, st)) ∧
    refresh env st = get_tasks env ⟨Option.none⟩ := by
  refine ⟨rfl, rfl, rfl, rfl, fun h => ?_, rfl⟩
  unfold get_tasks
  rw [h]

/-- Witness for C7 at a concrete cached state. -/
theorem C7_witness :
    get_tasks envPendingB stCached =
      Except.ok ([[("uuid", Value.str "a")]], stCached) :=
  (C7_mutations_keep_cache envPendingB stCached "1"
    [[("uuid", Value.str "a")]]).2.2.2.2.1 rfl

/-- Claim C7 counterexample: after `start_task` the cache still holds the
old collection, and `get_tasks` serves the stale task `a` although a
reload of the environment would produce task `b`. -/
theorem C7_counterexample :
    (start_task "1" stCached).2.cache ≠ Option.none ∧
    get_tasks envPendingB (start_task "1" stCached).2 =
      Except.ok ([[("uuid", Value.str "a")]], stCached) ∧
    load_tasks envPendingB = Except.ok [[("uuid", Value.str "b")]] :=
  ⟨by decide, rfl, rfl⟩

/-- Claim C3 (amended): with a `uuid` present, setting a whitespace-only
note deletes the note file unless the stored note already equals that
exact string, in which case the call is a no-op and the file survives;
after setting non-blank text the note file holds exactly that text, the
notes folder having been created whenever a write happened; `get_note` is
the absent sentinel exactly without a `uuid`, the decoded contents when
the note file exists, and the empty string otherwise. -/
theorem C3_note_store (fs : FS) (folder : String) (t : Task) (u note : String)
    (hu : Task.uuidStr t = some u) :
    (pyStrip note = "" → get_note fs folder t ≠ some note →
      (set_note fs folder t note).map
        (fun fs1 => fs1.readFile (noteFile folder u)) = Except.ok Option.none) ∧
    (get_note fs folder t = some note →
      set_note fs folder t note = Except.ok fs) ∧
    (pyStrip note ≠ "" →
      (set_note fs folder t note).map
        (fun fs1 => fs1.readFile (noteFile folder u)) = Except.ok (some note)) ∧
    (pyStrip note ≠ "" → get_note fs folder t ≠ some note →
      (set_note fs folder t note).map
        (fun fs1 => fs1.dirExists (pathJoin folder "notes")) = Except.ok true) ∧
    (∀ t2 : Task, Task.uuidStr t2 = Option.none →
      get_note fs folder t2 = Option.none) ∧
    (∀ c, fs.readFile (noteFile folder u) = some c →
      get_note fs folder t = some c) ∧
    (fs.readFile (noteFile folder u) = Option.none →
      get_note fs folder t = some "") := by
  have hget : get_note fs folder t =
      match fs.readFile (noteFile folder u) with
      | some contents => some contents
      | Option.none => some "" := by
    unfold get_note
    rw [hu]
  have hset : set_note fs folder t note =
      (if get_note fs folder t = some note then Except.ok fs
       else if pyStrip note ≠ "" then
         Except.ok ((if fs.dirExists (pathJoin folder "notes") then fs
           else fs.mkdir (pathJoin folder "notes")).write (noteFile folder u) note)
       else if (if fs.dirExists (pathJoin folder "notes") then fs
           else fs.mkdir (pathJoin folder "notes")).fileExists (noteFile folder u)
         then
         Except.ok ((if fs.dirExists (pathJoin folder "notes") then fs
           else fs.mkdir (pathJoin folder "notes")).unlink (noteFile folder u))
       else Except.ok (if fs.dirExists (pathJoin folder "notes") then fs
           else fs.mkdir (pathJoin folder "notes"))) := by
    unfold set_note
    rw [hu]
    rfl
  have hrf1 : (if fs.dirExists (pathJoin folder "notes") then fs
      else fs.mkdir (pathJoin folder "notes")).readFile (noteFile folder u) =
      fs.readFile (noteFile folder u) := by
    split <;> rfl
  have hdir1 : (if fs.dirExists (pathJoin folder "notes") then fs
      else fs.mkdir (pathJoin folder "notes")).dirExists (pathJoin folder "notes") =
      true := by
    by_cases hd : fs.dirExists (pathJoin folder "notes") = true
    · rw [if_pos hd]; exact hd
    · rw [if_neg hd]; exact dirExists_mkdir_self fs (pathJoin folder "notes")
  refine ⟨?_, ?_, ?_, ?_, ?_, ?_, ?_⟩
  · intro hblank hne
    rw [hset, if_neg hne, if_neg (fun hcon => hcon hblank)]
    by_cases hex : (if fs.dirExists (pathJoin folder "notes") then fs
        else fs.mkdir (pathJoin folder "notes")).fileExists (noteFile folder u) = true
    · rw [if_pos hex]
      simp only [Except.map]
      rw [readFile_unlink_self]
    · rw [if_neg hex]
      simp only [Except.map, Except.ok.injEq]
      revert hex
      unfold FS.fileExists
      cases (if fs.dirExists (pathJoin folder "notes") then fs
        else fs.mkdir (pathJoin folder "notes")).readFile (noteFile folder u) <;> simp
  · intro heq
    rw [hset, if_pos heq]
  · intro hnb
    by_cases heq : get_note fs folder t = some note
    · rw [hset, if_pos heq]
      simp only [Except.map, Except.ok.injEq]
      rw [hget] at heq
      cases hF : fs.readFile (noteFile folder u) with
      | some c => rw [hF] at heq; exact heq
      | none =>
        rw [hF] at heq
        exfalso
        apply hnb
        obtain rfl := (Option.some.inj heq)
        rfl
    · rw [hset, if_neg heq, if_pos hnb]
      simp only [Except.map, Except.ok.injEq]
      exact readFile_write_self _ (noteFile folder u) note
  · intro hnb hne
    rw [hset, if_neg hne, if_pos hnb]
    simp only [Except.map, Except.ok.injEq]
    rw [dirExists_write]
    exact hdir1
  · intro t2 h2
    unfold get_note
    rw [h2]
  · intro c hc
    rw [hget, hc]
  · intro hc
    rw [hget, hc]

/-- Witness for C3: a blank note differing from the stored one deletes
the note file. -/
theorem C3_witness :
    (set_note ⟨[("db/notes/u1", "old")], ["db/notes"]⟩ "db" taskU1 " ").map
      (fun fs1 => fs1.readFile (noteFile "db" "u1")) = Except.ok Option.none :=
  (C3_note_store ⟨[("db/notes/u1", "old")], ["db/notes"]⟩ "db" taskU1 "u1" " "
    rfl).1 rfl (by decide)

/-- Claim C3 counterexample: when the stored note equals the
whitespace-only argument, `set_note` returns early and the existing note
file is NOT deleted. -/
theorem C3_counterexample :
    set_note fsWsNote "db" taskU1 "  " = Except.ok fsWsNote ∧
    fsWsNote.readFile (noteFile "db" "u1") = some "  " :=
  ⟨rfl, rfl⟩

/-- The line loop fails with the format error naming the file as soon as
a line without the bracket bounds is reached. -/
theorem loadLines_error_of_bad (db : String) (pre rest : List String)
    (bad : String) (hbad : bracketOk bad = false)
    (hpre : ∀ line ∈ pre, bracketOk line = true ∧
      exceptOk (parseLine line) = true) :
    loadLines db (pre ++ bad :: rest) =
      Except.error ("Unsupported file format in " ++ db) := by
  induction pre with
  | nil => simp [loadLines, hbad]
  | cons line pre' ih =>
    obtain ⟨hb, hp⟩ := hpre line (by simp)
    have ih' := ih (fun l hl => hpre l (by simp [hl]))
    cases hpl : parseLine line with
    | error e => rw [hpl] at hp; simp [exceptOk] at hp
    | ok t => simp [loadLines, hb, hpl, ih']

/-- Claim C8: a file line not bounded by a leading `[` and a trailing `]`
makes `load_data` fail with the format error naming the offending file
(the first failure aborts the whole file, so the earlier lines are
required to parse), while the other database file is a separate
`load_data` call that still loads on its own. -/
theorem C8_format_error (db raw : String) (exported : List ExportEntry)
    (pre rest : List String) (bad : String)
    (hsplit : pySplit '\n' (pyRstrip raw) = pre ++ bad :: rest)
    (hbad : bracketOk bad = false)
    (hpre : ∀ line ∈ pre, bracketOk line = true ∧
      exceptOk (parseLine line) = true) :
    load_data db (some raw) exported =
      Except.error ("Unsupported file format in " ++ db) ∧
    ∀ db2 : String, exceptOk (load_data db2 (some "[uuid:a]") exported) = true := by
  constructor
  · simp only [load_data]
    rw [hsplit, loadLines_error_of_bad db pre rest bad hbad hpre]
    rfl
  · intro db2
    rfl

/-- Witness for C8: a pending file whose second line misses the brackets
fails naming the file, while a completed file loads independently. -/
theorem C8_witness :
    load_data "data/pending.data" (some "[uuid:a]\nbroken") [] =
      Except.error ("Unsupported file format in " ++ "data/pending.data") ∧
    exceptOk (load_data "data/completed.data" (some "[uuid:a]") []) = true :=
  ⟨(C8_format_error "data/pending.data" "[uuid:a]\nbroken" [] ["[uuid:a]"] []
      "broken" (by decide) rfl (by decide)).1,
   (C8_format_error "data/pending.data" "[uuid:a]\nbroken" [] ["[uuid:a]"] []
      "broken" (by decide) rfl (by decide)).2 "data/completed.data"⟩

end Taskindicator
